import Mathlib

/-!
Verification of the paginated query-execution engine of `ga4gh/server/backend.py`.

The `Backend` class drives per-endpoint enumeration generators through a
response accumulator, producing pages of results together with resumption
cursors.  This file gives a shallow embedding of the generators and the
dispatch loop of `backend.py` and proves the pagination, filtering and
error-handling properties stated about them.

Collaborator modules that are not part of the analysed source
(`ga4gh.server.paging._parsePageToken`, `response_builder`, the compound
identifier codec of `ga4gh.server.datamodel`, and the protocol JSON codec)
are modelled from the specification document; each such definition carries a
doc comment starting with `Modelled from the spec:`.
-/

/-- Error taxonomy of the dispatcher (`ga4gh.server.exceptions`); each case
models one exception class raised by `backend.py`. -/
inductive Err where
  | invalidJson : Err
  | badPageSize : Int → Err
  | badRequest : Err
  | malformedCursor : Err
  | unmappedReadsNotSupported : Err
  | readGroupSetNotMapped : Err
  | objectNotFound : Err
  | parentIncompatibleWithFeatureSet : Err
  | featureSetNotSpecified : Err
  | indexError : Err
deriving DecidableEq, Repr

/-! ### Cursor codec

`backend.py` produces page tokens with Python `str(currentIndex)` and decodes
them with `paging._parsePageToken(token, 1)`.  The decimal printer below
models `str` on non-negative integers; the parser models
`_parsePageToken` at arity 1 (the module `paging` is not in the analysed
source, so the parser is modelled from the spec). -/

/-- Little-endian decimal digits of `n`, with explicit fuel so that the
definition is structural and computes by kernel reduction.  Called with
fuel `n + 1`, which is always sufficient. -/
def toDigitsRevAux : Nat → Nat → List Nat
  | 0, _ => []
  | fuel + 1, n => if n < 10 then [n] else n % 10 :: toDigitsRevAux fuel (n / 10)

/-- Little-endian decimal digits of `n`. -/
def toDigitsRev (n : Nat) : List Nat := toDigitsRevAux (n + 1) n

/-- Character for a single decimal digit. -/
def digitChar10 (d : Nat) : Char :=
  [ '0', '1', '2', '3', '4', '5', '6', '7', '8', '9' ].getD d '0'

/-- Model of Python `str(n)` for a non-negative integer `n`: the usual
decimal representation. -/
def strNat (n : Nat) : String :=
  String.mk ((toDigitsRev n).reverse.map digitChar10)

/-- Decimal digit denoted by a character, if any. -/
def charToDigit? (c : Char) : Option Nat :=
  if 48 ≤ c.toNat ∧ c.toNat ≤ 57 then some (c.toNat - 48) else none

/-- Big-endian accumulation of decimal digits read from characters. -/
def parseDigits : List Char → Nat → Option Nat
  | [], acc => some acc
  | c :: cs, acc =>
    match charToDigit? c with
    | some d => parseDigits cs (10 * acc + d)
    | none => none

/-- Modelled from the spec: `paging._parsePageToken(token, 1)` (module
`paging` is not in the analysed source).  Decodes a page token into the one
non-negative integer it carries; `none` models the malformed-token failure.
An empty token never reaches this function in `backend.py`. -/
def parsePageToken (s : String) : Option Nat :=
  if s.data.isEmpty then none else parseDigits s.data 0

/-- Value of a little-endian digit list. -/
def valRev (ds : List Nat) : Nat := ds.foldr (fun d a => 10 * a + d) 0

theorem toDigitsRevAux_val (fuel : Nat) :
    ∀ n : Nat, n < fuel → valRev (toDigitsRevAux fuel n) = n := by
  induction fuel with
  | zero => intro n h; omega
  | succ fuel ih =>
    intro n h
    by_cases h10 : n < 10
    · simp [toDigitsRevAux, h10, valRev]
    · have hdiv : n / 10 < fuel := by
        have h1 : n / 10 < n := Nat.div_lt_self (by omega) (by omega)
        omega
      simp only [toDigitsRevAux, h10, if_false, valRev, List.foldr_cons]
      have := ih (n / 10) hdiv
      simp only [valRev] at this
      rw [this]
      omega

theorem toDigitsRev_val (n : Nat) : valRev (toDigitsRev n) = n :=
  toDigitsRevAux_val (n + 1) n (Nat.lt_succ_self n)

theorem toDigitsRevAux_lt (fuel : Nat) :
    ∀ n : Nat, ∀ d ∈ toDigitsRevAux fuel n, d < 10 := by
  induction fuel with
  | zero => intro n d hd; simp [toDigitsRevAux] at hd
  | succ fuel ih =>
    intro n d hd
    by_cases h10 : n < 10
    · simp [toDigitsRevAux, h10] at hd; omega
    · simp only [toDigitsRevAux, h10, if_false, List.mem_cons] at hd
      rcases hd with rfl | hd
      · exact Nat.mod_lt n (by omega)
      · exact ih (n / 10) d hd

theorem toDigitsRev_ne_nil (n : Nat) : toDigitsRev n ≠ [] := by
  by_cases h10 : n < 10 <;> simp [toDigitsRev, toDigitsRevAux, h10]

theorem charToDigit?_digitChar10 (d : Nat) (h : d < 10) :
    charToDigit? (digitChar10 d) = some d := by
  interval_cases d <;> decide

theorem parseDigits_map (ds : List Nat) (h : ∀ d ∈ ds, d < 10) :
    ∀ acc : Nat, parseDigits (ds.map digitChar10) acc =
      some (ds.foldl (fun a d => 10 * a + d) acc) := by
  induction ds with
  | nil => intro acc; simp [parseDigits]
  | cons d ds ih =>
    intro acc
    have hd : d < 10 := h d (List.mem_cons_self d ds)
    have hds : ∀ x ∈ ds, x < 10 := fun x hx => h x (List.mem_cons_of_mem d hx)
    simp only [List.map_cons, parseDigits, charToDigit?_digitChar10 d hd]
    exact ih hds (10 * acc + d)

theorem strNat_ne_empty (n : Nat) : strNat n ≠ "" := by
  have h := toDigitsRev_ne_nil n
  intro hcontra
  have hdata : (toDigitsRev n).reverse.map digitChar10 = [] :=
    congrArg String.data hcontra
  simp at hdata
  exact h hdata

/-- Round trip of the cursor codec: parsing `str(n)` recovers `n`. -/
theorem parsePageToken_strNat (n : Nat) : parsePageToken (strNat n) = some n := by
  have hne := toDigitsRev_ne_nil n
  have hlt := toDigitsRevAux_lt (n + 1) n
  simp only [parsePageToken, strNat]
  have hnonempty : ¬ ((toDigitsRev n).reverse.map digitChar10).isEmpty = true := by
    simp [List.isEmpty_iff, hne]
  rw [if_neg hnonempty]
  have hrevlt : ∀ d ∈ (toDigitsRev n).reverse, d < 10 := by
    intro d hd
    exact hlt d (List.mem_reverse.mp hd)
  rw [parseDigits_map _ hrevlt 0]
  congr 1
  rw [List.foldl_reverse]
  have : (toDigitsRev n).foldr (fun x y => 10 * y + x) 0 = valRev (toDigitsRev n) := rfl
  rw [this, toDigitsRev_val]

theorem strNat_three : strNat 3 = "3" := rfl

theorem parsePageToken_twelve : parsePageToken "12" = some 12 := rfl

/-! ### Indexed-collection enumeration (`Backend._topLevelObjectGenerator`)

The generator walks `getByIndexMethod(currentIndex)` for
`currentIndex = start, start+1, …, numObjects-1` and yields
`(object, nextPageToken)` pairs, where `nextPageToken = str(currentIndex+1)`
unless the incremented index reaches `numObjects`, in which case it is
`None`.  `getByIndex` below models the composition of `getByIndexMethod`
with `toProtocolElement`. -/

/-- Yield sequence of `_topLevelObjectGenerator` from index `i`, with fuel so
that the recursion is structural.  Fuel `numObjects - i` is exact. -/
def genFromAux (numObjects : Nat) (getByIndex : Nat → α) : Nat → Nat → List (α × Option String)
  | 0, _ => []
  | fuel + 1, i =>
    if i < numObjects then
      (getByIndex i, if i + 1 < numObjects then some (strNat (i + 1)) else none) ::
        genFromAux numObjects getByIndex fuel (i + 1)
    else []

/-- Yield sequence of `_topLevelObjectGenerator` (`backend.py` lines 87-93)
starting at `currentIndex = i`. -/
def genFrom (numObjects : Nat) (getByIndex : Nat → α) (i : Nat) : List (α × Option String) :=
  genFromAux numObjects getByIndex (numObjects - i) i

theorem genFrom_unfold (numObjects : Nat) (getByIndex : Nat → α) (i : Nat) :
    genFrom numObjects getByIndex i =
      if i < numObjects then
        (getByIndex i, if i + 1 < numObjects then some (strNat (i + 1)) else none) ::
          genFrom numObjects getByIndex (i + 1)
      else [] := by
  by_cases h : i < numObjects
  · have hfuel : numObjects - i = (numObjects - (i + 1)) + 1 := by omega
    simp [genFrom, hfuel, genFromAux, h]
  · have hfuel : numObjects - i = 0 := by omega
    simp [genFrom, hfuel, genFromAux, h]

/-- Request shape seen by `runSearchRequest` and the indexed generators: an
opaque resumption token (`""` = absent) and a requested page size
(`0` = unset). -/
structure SearchRequest where
  page_token : String := ""
  page_size : Int := 0
deriving DecidableEq, Repr

/-- Model of `Backend._topLevelObjectGenerator` (`backend.py` lines 74-93):
decodes the incoming page token (starting at index 0 when the token is
empty) and produces the yield sequence of the generator.  A token that does
not decode raises the malformed-cursor condition of
`paging._parsePageToken`. -/
def topLevelObjectGenerator (request : SearchRequest) (numObjects : Nat)
    (getByIndex : Nat → α) : Except Err (List (α × Option String)) :=
  if request.page_token ≠ "" then
    match parsePageToken request.page_token with
    | some i => .ok (genFrom numObjects getByIndex i)
    | none => .error .malformedCursor
  else .ok (genFrom numObjects getByIndex 0)

/-! ### Response accumulator and driving loop (`Backend.runSearchRequest`) -/

/-- Modelled from the spec: `SearchResponseBuilder.isFull` (module
`response_builder` is not in the analysed source) — the accumulator is full
when the accumulated count reaches `pageSize` or the approximate serialized
size of the accumulated list exceeds `maxResponseLength`; `size` is the
per-element contribution to the approximate size estimate. -/
def isFull (pageSize : Int) (maxResponseLength : Nat) (size : β → Nat)
    (values : List β) : Bool :=
  decide (pageSize ≤ (values.length : Int)) ||
    decide (maxResponseLength < (values.map size).sum)

/-- Driving loop of `runSearchRequest` (`backend.py` lines 618-623): iterate
the `(object, nextPageToken)` pairs, add each value, and stop once the
accumulator reports full; the pair's token is retained as the pending
next-page token whether the loop breaks or the sequence is exhausted. -/
def driveLoop (full : List β → Bool) :
    List (β × Option String) → List β → Option String → List β × Option String
  | [], acc, tok => (acc, tok)
  | (b, t) :: rest, acc, _ =>
    let acc' := acc ++ [b]
    if full acc' then (acc', t) else driveLoop full rest acc' t

/-- Response envelope handed back by one dispatch: the accumulated page and
the outgoing cursor (`none` = empty token). -/
structure SearchResponse (β : Type) where
  results : List β
  nextPageToken : Option String
deriving DecidableEq, Repr

/-- Model of `Backend.runSearchRequest` (`backend.py` lines 592-626), after
JSON decoding: resolve an unset page size to the configured default, reject
a negative page size, obtain the enumeration sequence from
`objectGenerator`, drive it through the accumulator, and return the
accumulated page with the pending next-page token. -/
def runSearchRequest (defaultPageSize : Int) (maxResponseLength : Nat) (size : β → Nat)
    (objectGenerator : SearchRequest → Except Err (List (β × Option String)))
    (request : SearchRequest) : Except Err (SearchResponse β) :=
  let ps := if request.page_size = 0 then defaultPageSize else request.page_size
  if ps < 0 then .error (.badPageSize ps)
  else
    match objectGenerator { request with page_size := ps } with
    | .error e => .error e
    | .ok pairs =>
      let r := driveLoop (isFull ps maxResponseLength size) pairs [] none
      .ok { results := r.1, nextPageToken := r.2 }

/-- Successive dispatches: call `runOnce` with the start token, then keep
feeding each response's next-page token back until a response carries an
empty token; the trace of `(page, cursor)` pairs is collected.  `none`
signals fuel exhaustion or a failed dispatch. -/
def collectPages : Nat → (String → Except Err (SearchResponse β)) → String →
    Option (List (List β × Option String))
  | 0, _, _ => none
  | fuel + 1, runOnce, tok =>
    match runOnce tok with
    | .error _ => none
    | .ok resp =>
      match resp.nextPageToken with
      | none => some [(resp.results, none)]
      | some t => (collectPages fuel runOnce t).map (fun rest => (resp.results, some t) :: rest)

/-- Dispatch of one indexed-collection search (for instance the datasets
search, whose generator is `_topLevelObjectGenerator` over
`getNumDatasets`/`getDatasetByIndex`) at a given start token. -/
def indexedSearchDispatch (defaultPageSize : Int) (maxResponseLength : Nat)
    (size : α → Nat) (numObjects : Nat) (getByIndex : Nat → α) (pageSize : Int)
    (tok : String) : Except Err (SearchResponse α) :=
  runSearchRequest defaultPageSize maxResponseLength size
    (fun r => topLevelObjectGenerator r numObjects getByIndex)
    { page_token := tok, page_size := pageSize }

/-! ### Properties of the driving loop -/

theorem driveLoop_spec (full : List β → Bool) :
    ∀ (pairs : List (β × Option String)) (acc : List β) (tok : Option String),
      pairs ≠ [] →
      ∃ k, ∃ hk : k - 1 < pairs.length, 1 ≤ k ∧ k ≤ pairs.length ∧
        driveLoop full pairs acc tok =
          (acc ++ (pairs.take k).map Prod.fst, (pairs.get ⟨k - 1, hk⟩).2) ∧
        (k < pairs.length → full (acc ++ (pairs.take k).map Prod.fst) = true) := by
  intro pairs
  induction pairs with
  | nil => intro acc tok h; exact absurd rfl h
  | cons p rest ih =>
    intro acc tok _
    obtain ⟨b, t⟩ := p
    by_cases hf : full (acc ++ [b]) = true
    · refine ⟨1, by simp, le_refl 1, by simp, ?_, ?_⟩
      · simp [driveLoop, hf]
      · intro _; simpa using hf
    · by_cases hrest : rest = []
      · subst hrest
        refine ⟨1, by simp, le_refl 1, by simp, ?_, ?_⟩
        · simp [driveLoop, hf]
        · intro hcontra; simp at hcontra
      · obtain ⟨k', hk', h1, h2, h3, h4⟩ := ih (acc ++ [b]) t hrest
        obtain ⟨m, rfl⟩ : ∃ m, k' = m + 1 := ⟨k' - 1, by omega⟩
        refine ⟨m + 2, by simp; omega, by omega, by simp; omega, ?_, ?_⟩
        · have hstep : driveLoop full ((b, t) :: rest) acc tok =
              driveLoop full rest (acc ++ [b]) t := by
            simp [driveLoop, hf]
          rw [hstep, h3]
          refine Prod.ext ?_ ?_
          · simp [List.take_succ_cons, List.append_assoc]
          · rfl
        · intro hlt
          have hlt' : m + 1 < rest.length := by simp at hlt; omega
          have := h4 hlt'
          simpa [List.take_succ_cons] using this

theorem driveLoop_genFrom (full : List α → Bool) (numObjects : Nat) (getByIndex : Nat → α) :
    ∀ (fuel i : Nat) (acc : List α) (tok : Option String),
      numObjects - i ≤ fuel → i < numObjects →
      ∃ k, 1 ≤ k ∧ i + k ≤ numObjects ∧
        driveLoop full (genFrom numObjects getByIndex i) acc tok =
          (acc ++ (List.range' i k).map getByIndex,
            if i + k < numObjects then some (strNat (i + k)) else none) := by
  intro fuel
  induction fuel with
  | zero => intro i acc tok hfuel hi; omega
  | succ fuel ih =>
    intro i acc tok hfuel hi
    rw [genFrom_unfold, if_pos hi]
    by_cases hf : full (acc ++ [getByIndex i]) = true
    · refine ⟨1, le_refl 1, by omega, ?_⟩
      simp [driveLoop, hf]
    · by_cases hnext : i + 1 < numObjects
      · obtain ⟨k', h1, h2, h3⟩ :=
          ih (i + 1) (acc ++ [getByIndex i])
            (if i + 1 < numObjects then some (strNat (i + 1)) else none)
            (by omega) hnext
        refine ⟨k' + 1, by omega, by omega, ?_⟩
        have hstep : driveLoop full
              ((getByIndex i, if i + 1 < numObjects then some (strNat (i + 1)) else none) ::
                genFrom numObjects getByIndex (i + 1)) acc tok =
            driveLoop full (genFrom numObjects getByIndex (i + 1)) (acc ++ [getByIndex i])
              (if i + 1 < numObjects then some (strNat (i + 1)) else none) := by
          simp [driveLoop, hf]
        rw [hstep, h3]
        have harith : i + (k' + 1) = i + 1 + k' := by omega
        rw [List.range'_succ]
        simp [List.append_assoc, harith]
      · have hlast : i + 1 = numObjects := by omega
        refine ⟨1, le_refl 1, by omega, ?_⟩
        have hempty : genFrom numObjects getByIndex (i + 1) = [] := by
          rw [genFrom_unfold, if_neg (show ¬ i + 1 < numObjects by omega)]
        have hstep : driveLoop full
              ((getByIndex i, if i + 1 < numObjects then some (strNat (i + 1)) else none) ::
                genFrom numObjects getByIndex (i + 1)) acc tok =
            driveLoop full (genFrom numObjects getByIndex (i + 1)) (acc ++ [getByIndex i])
              (if i + 1 < numObjects then some (strNat (i + 1)) else none) := by
          simp [driveLoop, hf]
        rw [hstep, hempty]
        simp [driveLoop, hnext]

theorem genFrom_eq_map (numObjects : Nat) (getByIndex : Nat → α) :
    ∀ (fuel i : Nat), numObjects - i ≤ fuel →
      genFrom numObjects getByIndex i =
        (List.range' i (numObjects - i)).map
          (fun j => (getByIndex j,
            if j + 1 < numObjects then some (strNat (j + 1)) else none)) := by
  intro fuel
  induction fuel with
  | zero =>
    intro i hfuel
    have h0 : numObjects - i = 0 := by omega
    rw [genFrom_unfold, if_neg (show ¬ i < numObjects by omega), h0]
    simp
  | succ fuel ih =>
    intro i hfuel
    by_cases hi : i < numObjects
    · have hsplit : numObjects - i = (numObjects - (i + 1)) + 1 := by omega
      rw [genFrom_unfold, if_pos hi, hsplit, List.range'_succ, List.map_cons,
        ih (i + 1) (by omega)]
    · have h0 : numObjects - i = 0 := by omega
      rw [genFrom_unfold, if_neg hi, h0]
      simp

theorem collectPages_indexed (defaultPageSize : Int) (maxResponseLength : Nat)
    (size : α → Nat) (numObjects : Nat) (getByIndex : Nat → α) (pageSize : Int)
    (hps : 0 ≤ (if pageSize = 0 then defaultPageSize else pageSize)) :
    ∀ (fuel i : Nat) (tok : String), numObjects - i < fuel →
      ((tok = "" ∧ i = 0) ∨ (tok ≠ "" ∧ parsePageToken tok = some i)) →
      ∃ trace,
        collectPages fuel
          (indexedSearchDispatch defaultPageSize maxResponseLength size numObjects
            getByIndex pageSize) tok = some trace ∧
        (trace.map Prod.fst).flatten = (List.range' i (numObjects - i)).map getByIndex := by
  intro fuel
  induction fuel with
  | zero => intro i tok hfuel htok; omega
  | succ fuel ih =>
    intro i tok hfuel htok
    have hdispatch :
        indexedSearchDispatch defaultPageSize maxResponseLength size numObjects
            getByIndex pageSize tok =
          .ok { results := (driveLoop
                  (isFull (if pageSize = 0 then defaultPageSize else pageSize)
                    maxResponseLength size)
                  (genFrom numObjects getByIndex i) [] none).1,
                nextPageToken := (driveLoop
                  (isFull (if pageSize = 0 then defaultPageSize else pageSize)
                    maxResponseLength size)
                  (genFrom numObjects getByIndex i) [] none).2 } := by
      rcases htok with ⟨rfl, rfl⟩ | ⟨hne, hparse⟩
      · simp [indexedSearchDispatch, runSearchRequest, topLevelObjectGenerator,
          show ¬ ((if pageSize = 0 then defaultPageSize else pageSize) < 0) by omega]
      · simp [indexedSearchDispatch, runSearchRequest, topLevelObjectGenerator, hne, hparse,
          show ¬ ((if pageSize = 0 then defaultPageSize else pageSize) < 0) by omega]
    by_cases hi : i < numObjects
    · obtain ⟨k, hk1, hk2, hk3⟩ :=
        driveLoop_genFrom
          (isFull (if pageSize = 0 then defaultPageSize else pageSize) maxResponseLength size)
          numObjects getByIndex (numObjects - i) i [] none (le_refl _) hi
      by_cases hend : i + k < numObjects
      · obtain ⟨trace', htrace', hjoin'⟩ :=
          ih (i + k) (strNat (i + k)) (by omega)
            (Or.inr ⟨strNat_ne_empty (i + k), parsePageToken_strNat (i + k)⟩)
        refine ⟨((List.range' i k).map getByIndex, some (strNat (i + k))) :: trace', ?_, ?_⟩
        · simp only [collectPages, hdispatch, hk3, if_pos hend]
          rw [htrace']
          rfl
        · simp only [List.map_cons, List.flatten_cons, hjoin']
          rw [← List.map_append]
          congr 1
          have happ := List.range'_append i k (numObjects - (i + k)) 1
          simp only [Nat.mul_one, Nat.one_mul] at happ
          have harith : numObjects - i = numObjects - (i + k) + k := by omega
          rw [harith]
          exact happ
      · refine ⟨[((List.range' i k).map getByIndex, none)], ?_, ?_⟩
        · simp only [collectPages, hdispatch, hk3, if_neg hend]
          rfl
        · have harith : k = numObjects - i := by omega
          simp [harith]
    · have hempty : genFrom numObjects getByIndex i = [] := by
        rw [genFrom_unfold, if_neg hi]
      refine ⟨[([], none)], ?_, ?_⟩
      · simp only [collectPages, hdispatch, hempty]
        rfl
      · have h0 : numObjects - i = 0 := by omega
        simp [h0]

/-! ### Claims about pagination and the dispatcher -/

/-- C1: for every indexed-collection (or filtered-list) enumeration driven by
`_topLevelObjectGenerator` over a fixed repository of `numObjects` items,
running successive `runSearchRequest` dispatches in which each call's page
token is the previous response's next-page token (the first call with an
empty token) yields pages whose concatenation is exactly the full ordered
sequence of items, with no duplicates and no gaps; in particular, for 10
items and page size 3 the four successive responses carry the cursors
`"3"`, `"6"`, `"9"` and the empty cursor. -/
theorem spec_c1_pagination_resumption (defaultPageSize : Int) (maxResponseLength : Nat)
    (size : α → Nat) (numObjects : Nat) (getByIndex : Nat → α) (pageSize : Int)
    (hps : 0 ≤ (if pageSize = 0 then defaultPageSize else pageSize)) :
    (∃ trace,
        collectPages (numObjects + 1)
          (indexedSearchDispatch defaultPageSize maxResponseLength size numObjects
            getByIndex pageSize) "" = some trace ∧
        (trace.map Prod.fst).flatten = (List.range numObjects).map getByIndex) ∧
    collectPages 11 (indexedSearchDispatch 100 (2 ^ 20) (fun _ => 1) 10 (fun j => j) 3) ""
      = some [([0, 1, 2], some "3"), ([3, 4, 5], some "6"), ([6, 7, 8], some "9"),
          ([9], none)] := by
  constructor
  · obtain ⟨trace, h1, h2⟩ :=
      collectPages_indexed defaultPageSize maxResponseLength size numObjects getByIndex
        pageSize hps (numObjects + 1) 0 "" (by omega) (Or.inl ⟨rfl, rfl⟩)
    exact ⟨trace, h1, by simpa [List.range_eq_range'] using h2⟩
  · rfl

theorem spec_c1_pagination_resumption_witness :
    (0 ≤ (if (2 : Int) = 0 then (100 : Int) else 2)) ∧
    ((∃ trace,
        collectPages (5 + 1) (indexedSearchDispatch 100 (2 ^ 20) (fun _ => 1) 5 (fun j => j) 2) ""
          = some trace ∧
        (trace.map Prod.fst).flatten = (List.range 5).map (fun j => j)) ∧
      collectPages 11 (indexedSearchDispatch 100 (2 ^ 20) (fun _ => 1) 10 (fun j => j) 3) ""
        = some [([0, 1, 2], some "3"), ([3, 4, 5], some "6"), ([6, 7, 8], some "9"),
            ([9], none)]) :=
  ⟨by decide, spec_c1_pagination_resumption 100 (2 ^ 20) (fun _ => 1) 5 (fun j => j) 2 (by decide)⟩

/-- C4: in `runSearchRequest`, an unset (zero) `page_size` is replaced by the
configured default before anything else happens, and a negative `page_size`
makes the dispatch fail with `BadPageSizeException` for every enumeration
strategy alike — the strategy is never invoked, so the failure precedes any
repository access. -/
theorem spec_c4_page_size_validation (defaultPageSize : Int) (maxResponseLength : Nat)
    (size : β → Nat) (request : SearchRequest) :
    (request.page_size = 0 →
      ∀ objectGenerator : SearchRequest → Except Err (List (β × Option String)),
        runSearchRequest defaultPageSize maxResponseLength size objectGenerator request =
          runSearchRequest defaultPageSize maxResponseLength size objectGenerator
            { request with page_size := defaultPageSize }) ∧
    (request.page_size < 0 →
      ∀ objectGenerator : SearchRequest → Except Err (List (β × Option String)),
        runSearchRequest defaultPageSize maxResponseLength size objectGenerator request =
          .error (.badPageSize request.page_size)) := by
  constructor
  · intro hz objectGenerator
    by_cases hd : defaultPageSize = 0 <;> simp [runSearchRequest, hz, hd]
  · intro hneg objectGenerator
    have hnz : ¬ request.page_size = 0 := by omega
    simp [runSearchRequest, hnz, hneg]

theorem spec_c4_page_size_validation_witness :
    (({ page_token := "", page_size := 0 } : SearchRequest).page_size = 0 ∧
      runSearchRequest 7 100 (fun _ : Nat => 1) (fun _ => .ok [])
          { page_token := "", page_size := 0 } =
        runSearchRequest 7 100 (fun _ : Nat => 1) (fun _ => .ok [])
          { page_token := "", page_size := 7 }) ∧
    (({ page_token := "", page_size := -2 } : SearchRequest).page_size < 0 ∧
      runSearchRequest 7 100 (fun _ : Nat => 1) (fun _ => .ok [])
          { page_token := "", page_size := -2 } =
        .error (.badPageSize (-2))) :=
  ⟨⟨rfl, (spec_c4_page_size_validation 7 100 (fun _ => 1)
      { page_token := "", page_size := 0 }).1 rfl (fun _ => .ok [])⟩,
   ⟨by decide, (spec_c4_page_size_validation 7 100 (fun _ => 1)
      { page_token := "", page_size := -2 }).2 (by decide) (fun _ => .ok [])⟩⟩

/-- C5: in the driving loop of `runSearchRequest`, each yielded value is
added before fullness is checked, the value whose addition makes the
accumulator full is retained (the page is the prefix of the first `k`
yielded values, `k ≥ 1`), the stored next-page token is exactly the cursor
paired with the last attempted item — whether the loop stopped because the
accumulator was full (`k < length`, in which case the accumulated page
tests full) or because the sequence was exhausted — and an empty sequence
leaves an empty page with an empty token. -/
theorem spec_c5_driving_loop (full : List β → Bool) (pairs : List (β × Option String)) :
    (pairs = [] → driveLoop full pairs [] none = ([], none)) ∧
    (pairs ≠ [] →
      ∃ k, ∃ hk : k - 1 < pairs.length, 1 ≤ k ∧ k ≤ pairs.length ∧
        driveLoop full pairs [] none =
          ((pairs.take k).map Prod.fst, (pairs.get ⟨k - 1, hk⟩).2) ∧
        (k < pairs.length → full ((pairs.take k).map Prod.fst) = true)) := by
  constructor
  · intro h; subst h; rfl
  · intro h
    obtain ⟨k, hk, h1, h2, h3, h4⟩ := driveLoop_spec full pairs [] none h
    exact ⟨k, hk, h1, h2, by simpa using h3, by simpa using h4⟩

theorem spec_c5_driving_loop_witness :
    ([((1 : Nat), some "1"), (2, some "2")] ≠ ([] : List (Nat × Option String))) ∧
    (∃ k, ∃ hk : k - 1 < ([((1 : Nat), some "1"), (2, some "2")]).length,
      1 ≤ k ∧ k ≤ ([((1 : Nat), some "1"), (2, some "2")]).length ∧
      driveLoop (fun l => decide (1 ≤ l.length)) [((1 : Nat), some "1"), (2, some "2")] [] none =
        (([((1 : Nat), some "1"), (2, some "2")].take k).map Prod.fst,
          ([((1 : Nat), some "1"), (2, some "2")].get ⟨k - 1, hk⟩).2) ∧
      (k < ([((1 : Nat), some "1"), (2, some "2")]).length →
        (fun l => decide (1 ≤ l.length))
          (([((1 : Nat), some "1"), (2, some "2")].take k).map Prod.fst) = true)) :=
  ⟨by decide,
    (spec_c5_driving_loop (fun l => decide (1 ≤ l.length))
      [((1 : Nat), some "1"), (2, some "2")]).2 (by decide)⟩

/-! ### Filtered read-group-set enumeration (`Backend._readGroupSetsGenerator`)

`_readGroupSetsGenerator` (`backend.py` lines 199-234) walks the dataset's
read-group-sets by index like `_topLevelObjectGenerator`, but additionally
evaluates a name filter and a biosample filter: when `request.biosample_id`
is set it clears the protocol element's `read_groups` field and rebuilds it
with the read-groups whose biosample id matches, and skips the object
entirely when the rebuilt list is empty although the object has
read-groups.  The page token is computed from the index regardless of
whether the object is yielded. -/

/-- Read group of a read-group-set; `biosampleId` is what
`readGroup.getBiosampleId()` returns.  The read group also stands for its
own protocol element (`toProtocolElement` is the identity in this model). -/
structure ReadGroupM where
  localId : String
  biosampleId : String
deriving DecidableEq, Repr

/-- Read-group-set datamodel object, as used by the generator:
`getLocalId()` and `getReadGroups()`. -/
structure ReadGroupSetObj where
  localId : String
  readGroups : List ReadGroupM
deriving DecidableEq, Repr

/-- Protocol element of a read-group-set: its name and its embedded
read-group list. -/
structure ReadGroupSetPE where
  name : String
  read_groups : List ReadGroupM
deriving DecidableEq, Repr

/-- Conversion `obj.toProtocolElement()` for a read-group-set. -/
def ReadGroupSetObj.toProtocolElement (o : ReadGroupSetObj) : ReadGroupSetPE :=
  { name := o.localId, read_groups := o.readGroups }

/-- Request fields read by `_readGroupSetsGenerator`. -/
structure RGSRequest where
  page_token : String := ""
  name : String := ""
  biosample_id : String := ""
deriving DecidableEq, Repr

/-- Name-filter outcome after `backend.py` lines 216-217: the object passes
unless a name filter is present and differs from the object's local id. -/
def rgsInclude1 (request : RGSRequest) (obj : ReadGroupSetObj) : Bool :=
  !(request.name != "" && request.name != obj.localId)

/-- Protocol element emitted for one read-group-set after `backend.py`
lines 218-223: with a biosample filter (and a passing name filter) the
embedded read-group list is cleared and rebuilt with only the matching
read-groups, in order; otherwise the element is unchanged. -/
def rgsProto (request : RGSRequest) (obj : ReadGroupSetObj) : ReadGroupSetPE :=
  if request.biosample_id != "" && rgsInclude1 request obj then
    { name := obj.localId,
      read_groups := obj.readGroups.filter
        (fun readGroup => readGroup.biosampleId == request.biosample_id) }
  else obj.toProtocolElement

/-- Inclusion decision after `backend.py` lines 224-228: the object is
dropped when the biosample filter left no read-groups although the object
has read-groups. -/
def rgsInclude2 (request : RGSRequest) (obj : ReadGroupSetObj) : Bool :=
  rgsInclude1 request obj &&
    !(request.biosample_id != "" && (rgsProto request obj).read_groups.isEmpty &&
      !obj.readGroups.isEmpty)

/-- Yield sequence of `_readGroupSetsGenerator` from index `i`, with fuel so
that the recursion is structural (fuel `objs.length - i` is exact, and any
larger fuel gives the same list). -/
def readGroupSetsGenAux (request : RGSRequest) (objs : List ReadGroupSetObj) :
    Nat → Nat → List (ReadGroupSetPE × Option String)
  | 0, _ => []
  | fuel + 1, i =>
    if h : i < objs.length then
      (if rgsInclude2 request (objs.get ⟨i, h⟩) then
        [(rgsProto request (objs.get ⟨i, h⟩),
          if i + 1 < objs.length then some (strNat (i + 1)) else none)]
       else []) ++ readGroupSetsGenAux request objs fuel (i + 1)
    else []

/-- Model of `Backend._readGroupSetsGenerator` (`backend.py` lines 199-234):
decode the page token and produce the yield sequence from the decoded
index. -/
def readGroupSetsGenerator (request : RGSRequest) (objs : List ReadGroupSetObj) :
    Except Err (List (ReadGroupSetPE × Option String)) :=
  if request.page_token ≠ "" then
    match parsePageToken request.page_token with
    | some i => .ok (readGroupSetsGenAux request objs (objs.length - i) i)
    | none => .error .malformedCursor
  else .ok (readGroupSetsGenAux request objs objs.length 0)

theorem readGroupSetsGenAux_out_of_range (request : RGSRequest) (objs : List ReadGroupSetObj)
    (fuel i : Nat) (hi : ¬ i < objs.length) :
    readGroupSetsGenAux request objs fuel i = [] := by
  cases fuel with
  | zero => rfl
  | succ fuel => simp [readGroupSetsGenAux, hi]

theorem readGroupSetsGenAux_none_last (request : RGSRequest) (objs : List ReadGroupSetObj) :
    ∀ (fuel i pos : Nat) (p : ReadGroupSetPE × Option String),
      (readGroupSetsGenAux request objs fuel i)[pos]? = some p → p.2 = none →
      pos = (readGroupSetsGenAux request objs fuel i).length - 1 := by
  intro fuel
  induction fuel with
  | zero => intro i pos p hp; simp [readGroupSetsGenAux] at hp
  | succ fuel ih =>
    intro i pos p hp hnone
    by_cases hi : i < objs.length
    · have hstep : readGroupSetsGenAux request objs (fuel + 1) i =
          (if rgsInclude2 request (objs.get ⟨i, hi⟩) then
            [(rgsProto request (objs.get ⟨i, hi⟩),
              if i + 1 < objs.length then some (strNat (i + 1)) else none)]
           else []) ++ readGroupSetsGenAux request objs fuel (i + 1) := by
        simp [readGroupSetsGenAux, hi]
      rw [hstep] at hp ⊢
      by_cases hinc : rgsInclude2 request (objs.get ⟨i, hi⟩) = true
      · rw [if_pos hinc, List.singleton_append] at hp ⊢
        cases pos with
        | zero =>
          simp only [List.getElem?_cons_zero, Option.some.injEq] at hp
          subst hp
          simp only at hnone
          by_cases hnext : i + 1 < objs.length
          · rw [if_pos hnext] at hnone
            exact absurd hnone (by simp)
          · have hempty : readGroupSetsGenAux request objs fuel (i + 1) = [] :=
              readGroupSetsGenAux_out_of_range request objs fuel (i + 1) hnext
            simp [hempty]
        | succ pos =>
          rw [List.getElem?_cons_succ] at hp
          have hlt : pos < (readGroupSetsGenAux request objs fuel (i + 1)).length := by
            by_contra hge
            rw [List.getElem?_eq_none (by omega)] at hp
            exact Option.noConfusion hp
          have := ih (i + 1) pos p hp hnone
          simp only [List.length_cons]
          omega
      · rw [if_neg hinc, List.nil_append] at hp ⊢
        exact ih (i + 1) pos p hp hnone
    · rw [readGroupSetsGenAux_out_of_range request objs _ i hi] at hp
      simp at hp

theorem genFrom_cursor_iff (numObjects : Nat) (getByIndex : Nat → α) (s pos : Nat)
    (hpos : pos < (genFrom numObjects getByIndex s).length) :
    (((genFrom numObjects getByIndex s).get ⟨pos, hpos⟩).2 = none ↔
      pos = (genFrom numObjects getByIndex s).length - 1) := by
  have hchar := genFrom_eq_map numObjects getByIndex (numObjects - s) s (le_refl _)
  have hlen : (genFrom numObjects getByIndex s).length = numObjects - s := by
    rw [hchar]; simp
  have hposm : pos < numObjects - s := by omega
  have hget : (genFrom numObjects getByIndex s).get ⟨pos, hpos⟩ =
      (getByIndex (s + pos),
        if s + pos + 1 < numObjects then some (strNat (s + pos + 1)) else none) := by
    have h1 : (genFrom numObjects getByIndex s)[pos]? =
        some ((genFrom numObjects getByIndex s).get ⟨pos, hpos⟩) := by
      simp [List.getElem?_eq_getElem hpos]
    generalize hq : (genFrom numObjects getByIndex s).get ⟨pos, hpos⟩ = q at h1 ⊢
    rw [hchar] at h1
    simp only [List.getElem?_map, List.getElem?_range', hposm, if_pos, Nat.one_mul,
      Option.map_some'] at h1
    exact (Option.some_inj.mp h1).symm
  rw [hget, hlen]
  simp only
  constructor
  · intro h
    by_cases hc : s + pos + 1 < numObjects
    · rw [if_pos hc] at h
      exact absurd h (by simp)
    · omega
  · intro h
    rw [if_neg (by omega)]

theorem readGroupSetsGenAux_mem_shape (request : RGSRequest) (objs : List ReadGroupSetObj)
    (hbid : request.biosample_id ≠ "") :
    ∀ (fuel i : Nat), ∀ p ∈ readGroupSetsGenAux request objs fuel i,
      ∃ j, ∃ hj : j < objs.length,
        p.1.name = (objs.get ⟨j, hj⟩).localId ∧
        p.1.read_groups = (objs.get ⟨j, hj⟩).readGroups.filter
          (fun readGroup => readGroup.biosampleId == request.biosample_id) ∧
        ((objs.get ⟨j, hj⟩).readGroups ≠ [] → p.1.read_groups ≠ []) := by
  have hbid' : (request.biosample_id != "") = true := by simpa [bne_iff_ne] using hbid
  intro fuel
  induction fuel with
  | zero => intro i p hp; simp [readGroupSetsGenAux] at hp
  | succ fuel ih =>
    intro i p hp
    by_cases hi : i < objs.length
    · have hstep : readGroupSetsGenAux request objs (fuel + 1) i =
          (if rgsInclude2 request (objs.get ⟨i, hi⟩) then
            [(rgsProto request (objs.get ⟨i, hi⟩),
              if i + 1 < objs.length then some (strNat (i + 1)) else none)]
           else []) ++ readGroupSetsGenAux request objs fuel (i + 1) := by
        simp [readGroupSetsGenAux, hi]
      rw [hstep] at hp
      rcases List.mem_append.mp hp with hp1 | hp2
      · by_cases hinc : rgsInclude2 request (objs.get ⟨i, hi⟩) = true
        · rw [if_pos hinc] at hp1
          simp only [List.mem_singleton] at hp1
          subst hp1
          simp only [rgsInclude2, Bool.and_eq_true] at hinc
          obtain ⟨hinc1, hinc2⟩ := hinc
          have hcond : (request.biosample_id != "" &&
              rgsInclude1 request (objs.get ⟨i, hi⟩)) = true := by
            rw [hbid', hinc1]; rfl
          have hproto : rgsProto request (objs.get ⟨i, hi⟩) =
              { name := (objs.get ⟨i, hi⟩).localId,
                read_groups := (objs.get ⟨i, hi⟩).readGroups.filter
                  (fun readGroup => readGroup.biosampleId == request.biosample_id) } := by
            unfold rgsProto
            rw [if_pos hcond]
          refine ⟨i, hi, ?_, ?_, ?_⟩
          · show (rgsProto request (objs.get ⟨i, hi⟩)).name = _
            rw [hproto]
          · show (rgsProto request (objs.get ⟨i, hi⟩)).read_groups = _
            rw [hproto]
          · intro hne hcontra
            have hcontra' : (rgsProto request (objs.get ⟨i, hi⟩)).read_groups = [] := hcontra
            have hone : (rgsProto request (objs.get ⟨i, hi⟩)).read_groups.isEmpty = true := by
              rw [hcontra']; rfl
            have hobj : (!(objs.get ⟨i, hi⟩).readGroups.isEmpty) = true := by
              cases hrg : (objs.get ⟨i, hi⟩).readGroups with
              | nil => exact absurd hrg hne
              | cons a l => rfl
            rw [hbid', hone, hobj] at hinc2
            simp at hinc2
        · rw [if_neg hinc] at hp1
          simp at hp1
      · exact ih (i + 1) p hp2
    · rw [readGroupSetsGenAux_out_of_range request objs _ i hi] at hp
      simp at hp

theorem topLevelObjectGenerator_ok (request : SearchRequest) (numObjects : Nat)
    (getByIndex : Nat → α) (out : List (α × Option String))
    (hout : topLevelObjectGenerator request numObjects getByIndex = .ok out) :
    ∃ s, out = genFrom numObjects getByIndex s := by
  unfold topLevelObjectGenerator at hout
  by_cases htok : request.page_token ≠ ""
  · rw [if_pos htok] at hout
    cases hparse : parsePageToken request.page_token with
    | none => rw [hparse] at hout; exact absurd hout (by simp)
    | some s =>
      rw [hparse] at hout
      injection hout with h
      exact ⟨s, h.symm⟩
  · rw [if_neg htok] at hout
    injection hout with h
    exact ⟨0, h.symm⟩

theorem readGroupSetsGenerator_ok (request : RGSRequest) (objs : List ReadGroupSetObj)
    (out : List (ReadGroupSetPE × Option String))
    (hout : readGroupSetsGenerator request objs = .ok out) :
    ∃ fuel i, out = readGroupSetsGenAux request objs fuel i := by
  unfold readGroupSetsGenerator at hout
  by_cases htok : request.page_token ≠ ""
  · rw [if_pos htok] at hout
    cases hparse : parsePageToken request.page_token with
    | none => rw [hparse] at hout; exact absurd hout (by simp)
    | some i =>
      rw [hparse] at hout
      injection hout with h
      exact ⟨objs.length - i, i, h.symm⟩
  · rw [if_neg htok] at hout
    injection hout with h
    exact ⟨objs.length, 0, h.symm⟩

/-- C2 (amended): for the indexed enumeration `_topLevelObjectGenerator` the
exhaustion marker holds in both directions — a yielded pair carries an empty
`nextPageToken` exactly when it is the last pair of the sequence.  For the
filtered `_readGroupSetsGenerator` only one direction holds: a pair with an
empty token is always the last pair, but the last pair may carry a non-empty
token (namely when every remaining candidate is filtered out), because the
token is computed from the index before filtering is taken into account. -/
theorem spec_c2_exhaustion_marker :
    (∀ (α : Type) (request : SearchRequest) (numObjects : Nat) (getByIndex : Nat → α)
        (out : List (α × Option String)),
      topLevelObjectGenerator request numObjects getByIndex = .ok out →
      ∀ (pos : Nat) (hpos : pos < out.length),
        ((out.get ⟨pos, hpos⟩).2 = none ↔ pos = out.length - 1)) ∧
    (∀ (request : RGSRequest) (objs : List ReadGroupSetObj)
        (out : List (ReadGroupSetPE × Option String)),
      readGroupSetsGenerator request objs = .ok out →
      ∀ (pos : Nat) (hpos : pos < out.length),
        (out.get ⟨pos, hpos⟩).2 = none → pos = out.length - 1) := by
  constructor
  · intro α request numObjects getByIndex out hout pos hpos
    obtain ⟨s, rfl⟩ := topLevelObjectGenerator_ok request numObjects getByIndex out hout
    exact genFrom_cursor_iff numObjects getByIndex s pos hpos
  · intro request objs out hout pos hpos hnone
    obtain ⟨fuel, i, rfl⟩ := readGroupSetsGenerator_ok request objs out hout
    exact readGroupSetsGenAux_none_last request objs fuel i pos _
      (by simp [List.getElem?_eq_getElem hpos]) hnone

theorem spec_c2_exhaustion_marker_witness :
    (topLevelObjectGenerator { page_token := "", page_size := 0 } 2 (fun j => j) =
        .ok [((0 : Nat), some "1"), (1, none)]) ∧
    ((([((0 : Nat), some "1"), (1, none)] : List (Nat × Option String)).get
        ⟨1, by decide⟩).2 = none ↔
      1 = ([((0 : Nat), some "1"), (1, none)] : List (Nat × Option String)).length - 1) :=
  ⟨rfl, spec_c2_exhaustion_marker.1 Nat { page_token := "", page_size := 0 } 2 (fun j => j)
      [((0 : Nat), some "1"), (1, none)] rfl 1 (by decide)⟩

/-- C2, counterexample to the claim as stated: with a name filter matching
only the first of two read-group-sets, `_readGroupSetsGenerator` emits a
single (hence last) pair whose `nextPageToken` is the non-empty `"1"`, so
"`nextCursor` is empty iff the sequence yields no further pairs" fails for
this enumeration strategy. -/
theorem spec_c2_exhaustion_marker_counterexample :
    readGroupSetsGenerator { page_token := "", name := "a", biosample_id := "" }
        [{ localId := "a", readGroups := [] }, { localId := "b", readGroups := [] }] =
      .ok [({ name := "a", read_groups := [] }, some "1")] ∧
    ¬ (∀ (out : List (ReadGroupSetPE × Option String)),
        readGroupSetsGenerator { page_token := "", name := "a", biosample_id := "" }
            [{ localId := "a", readGroups := [] }, { localId := "b", readGroups := [] }] =
          .ok out →
        ∀ (pos : Nat) (hpos : pos < out.length),
          ((out.get ⟨pos, hpos⟩).2 = none ↔ pos = out.length - 1)) := by
  refine ⟨rfl, ?_⟩
  intro h
  have h0 := (h [({ name := "a", read_groups := [] }, some "1")] rfl 0 (by decide)).mpr rfl
  exact Option.noConfusion h0

/-- C3: for a read-group-sets search with a non-empty biosample filter,
every emitted protocol element is that of some repository read-group-set
with its embedded read-group list rebuilt to exactly the read-groups whose
biosample id equals the filter (in particular an emitted element whose
source has read-groups keeps at least one), and a read-group-set that has
read-groups but none matching is omitted from the output entirely. -/
theorem spec_c3_biosample_filter (request : RGSRequest) (objs : List ReadGroupSetObj)
    (out : List (ReadGroupSetPE × Option String))
    (hbid : request.biosample_id ≠ "")
    (hout : readGroupSetsGenerator request objs = .ok out) :
    (∀ p ∈ out, ∃ j, ∃ hj : j < objs.length,
        p.1.name = (objs.get ⟨j, hj⟩).localId ∧
        p.1.read_groups = (objs.get ⟨j, hj⟩).readGroups.filter
          (fun readGroup => readGroup.biosampleId == request.biosample_id) ∧
        ((objs.get ⟨j, hj⟩).readGroups ≠ [] → p.1.read_groups ≠ [])) ∧
    ((objs.map (fun o => o.localId)).Nodup →
      ∀ (j : Nat) (hj : j < objs.length),
        (objs.get ⟨j, hj⟩).readGroups ≠ [] →
        (∀ readGroup ∈ (objs.get ⟨j, hj⟩).readGroups,
          readGroup.biosampleId ≠ request.biosample_id) →
        ∀ p ∈ out, p.1.name ≠ (objs.get ⟨j, hj⟩).localId) := by
  obtain ⟨fuel, i, rfl⟩ := readGroupSetsGenerator_ok request objs out hout
  have hshape := readGroupSetsGenAux_mem_shape request objs hbid fuel i
  refine ⟨hshape, ?_⟩
  intro hnodup j hj hne hnomatch p hp hname
  obtain ⟨j', hj', hn, hr, himp⟩ := hshape p hp
  have hmap' : j' < (objs.map (fun o => o.localId)).length := by simpa using hj'
  have hmap : j < (objs.map (fun o => o.localId)).length := by simpa using hj
  have heq : (objs.map (fun o => o.localId)).get ⟨j', hmap'⟩ =
      (objs.map (fun o => o.localId)).get ⟨j, hmap⟩ := by
    simp only [List.get_eq_getElem, List.getElem_map]
    exact hn.symm.trans hname
  have hfin := (hnodup.get_inj_iff.mp heq)
  have hjj : j' = j := congrArg Fin.val hfin
  subst hjj
  have hfil : (objs.get ⟨j', hj⟩).readGroups.filter
      (fun readGroup => readGroup.biosampleId == request.biosample_id) = [] := by
    rw [List.filter_eq_nil_iff]
    intro a ha
    simpa using hnomatch a ha
  have hne' : (objs.get ⟨j', hj'⟩).readGroups ≠ [] := hne
  have := himp hne'
  rw [hr] at this
  exact this hfil

/-- Scenario repository for the biosample filter: one read-group-set with
three read-groups of which one matches `"b1"`, one with two read-groups of
which none matches. -/
def rgsScenarioObjs : List ReadGroupSetObj :=
  [{ localId := "x", readGroups :=
      [{ localId := "r1", biosampleId := "b1" },
       { localId := "r2", biosampleId := "b2" },
       { localId := "r3", biosampleId := "b3" }] },
   { localId := "y", readGroups :=
      [{ localId := "s1", biosampleId := "b2" },
       { localId := "s2", biosampleId := "b3" }] }]

/-- Scenario request with biosample filter `"b1"`. -/
def rgsScenarioRequest : RGSRequest := { page_token := "", name := "", biosample_id := "b1" }

/-- Output of the scenario: only the first read-group-set, with exactly its
single matching read-group embedded. -/
def rgsScenarioOut : List (ReadGroupSetPE × Option String) :=
  [({ name := "x", read_groups := [{ localId := "r1", biosampleId := "b1" }] }, some "1")]

theorem spec_c3_biosample_filter_witness :
    (rgsScenarioRequest.biosample_id ≠ "" ∧
      readGroupSetsGenerator rgsScenarioRequest rgsScenarioObjs = .ok rgsScenarioOut) ∧
    ((∀ p ∈ rgsScenarioOut, ∃ j, ∃ hj : j < rgsScenarioObjs.length,
        p.1.name = (rgsScenarioObjs.get ⟨j, hj⟩).localId ∧
        p.1.read_groups = (rgsScenarioObjs.get ⟨j, hj⟩).readGroups.filter
          (fun readGroup => readGroup.biosampleId == rgsScenarioRequest.biosample_id) ∧
        ((rgsScenarioObjs.get ⟨j, hj⟩).readGroups ≠ [] → p.1.read_groups ≠ [])) ∧
     ((rgsScenarioObjs.map (fun o => o.localId)).Nodup →
      ∀ (j : Nat) (hj : j < rgsScenarioObjs.length),
        (rgsScenarioObjs.get ⟨j, hj⟩).readGroups ≠ [] →
        (∀ readGroup ∈ (rgsScenarioObjs.get ⟨j, hj⟩).readGroups,
          readGroup.biosampleId ≠ rgsScenarioRequest.biosample_id) →
        ∀ p ∈ rgsScenarioOut, p.1.name ≠ (rgsScenarioObjs.get ⟨j, hj⟩).localId)) :=
  ⟨⟨by decide, rfl⟩,
    spec_c3_biosample_filter rgsScenarioRequest rgsScenarioObjs rgsScenarioOut
      (by decide) rfl⟩

/-! ### Repository and compound identifiers

The repository and the compound identifier scheme live in
`ga4gh.server.datamodel`, which is not part of the analysed source;
`backend.py` consumes them through `parse`, `getDataset`,
`getReadGroupSet`, `getReferenceSet`, `getReference` and `getFeatureSet`.
They are modelled from the spec: a compound identifier is an opaque string
encoding an ordered ancestry path of local identifiers
(`datasetLocalId/containerLocalId/objectLocalId`), parsing is deterministic
and lossless, exposes the ancestors of a child without a second lookup, and
fails with the object-not-found condition when the segment count does not
match the expected variant. -/

/-- Splits a character list at `'/'` boundaries (accumulator holds the
current segment reversed). -/
def splitSeg : List Char → List Char → List (List Char)
  | [], acc => [acc.reverse]
  | c :: cs, acc =>
    if c = '/' then acc.reverse :: splitSeg cs [] else splitSeg cs (c :: acc)

/-- Path segments of a compound identifier string. -/
def pathSegments (s : String) : List String :=
  (splitSeg s.data []).map String.mk

/-- Reference of a reference set; `bases` is the raw base-pair text served
by `getBases`. -/
structure ReferenceR where
  id : String
  bases : List Char
deriving DecidableEq, Repr

/-- Reference set of the repository. -/
structure ReferenceSetR where
  id : String
  references : List ReferenceR
deriving DecidableEq, Repr

/-- Read-group-set of a dataset: the compound ids of its read groups and
the optional reference-set binding (`none` models
`getReferenceSet() is None`). -/
structure ReadGroupSetR where
  id : String
  readGroupIds : List String
  referenceSetId : Option String
deriving DecidableEq, Repr

/-- Feature set of a dataset. -/
structure FeatureSetR where
  id : String
deriving DecidableEq, Repr

/-- Dataset of the repository. -/
structure DatasetR where
  id : String
  readGroupSets : List ReadGroupSetR
  featureSets : List FeatureSetR
deriving DecidableEq, Repr

/-- Modelled from the spec: the externally supplied data repository,
restricted to the collections the verified endpoints consult. -/
structure Repo where
  datasets : List DatasetR
  referenceSets : List ReferenceSetR
deriving DecidableEq, Repr

/-- Modelled from the spec: `repo.getDataset(id)`; object-not-found when no
dataset carries the identifier. -/
def Repo.getDataset (repo : Repo) (id : String) : Except Err DatasetR :=
  match repo.datasets.find? (fun d => d.id == id) with
  | some d => .ok d
  | none => .error .objectNotFound

/-- Modelled from the spec: `repo.getReferenceSet(id)`. -/
def Repo.getReferenceSet (repo : Repo) (id : String) : Except Err ReferenceSetR :=
  match repo.referenceSets.find? (fun r => r.id == id) with
  | some r => .ok r
  | none => .error .objectNotFound

/-- Modelled from the spec: `dataset.getReadGroupSet(id)`. -/
def DatasetR.getReadGroupSet (ds : DatasetR) (id : String) : Except Err ReadGroupSetR :=
  match ds.readGroupSets.find? (fun r => r.id == id) with
  | some r => .ok r
  | none => .error .objectNotFound

/-- Modelled from the spec: `dataset.getFeatureSet(id)`. -/
def DatasetR.getFeatureSet (ds : DatasetR) (id : String) : Except Err FeatureSetR :=
  match ds.featureSets.find? (fun r => r.id == id) with
  | some r => .ok r
  | none => .error .objectNotFound

/-- Modelled from the spec: `referenceSet.getReference(id)`. -/
def ReferenceSetR.getReference (rs : ReferenceSetR) (id : String) : Except Err ReferenceR :=
  match rs.references.find? (fun r => r.id == id) with
  | some r => .ok r
  | none => .error .objectNotFound

/-- Modelled from the spec: `readGroupSet.getReferenceSet()` — the
reference set bound to a read-group-set, or `none` when the set is not
mapped to one. -/
def Repo.getReferenceSetOf (repo : Repo) (rgs : ReadGroupSetR) : Option ReferenceSetR :=
  rgs.referenceSetId.bind (fun rid => repo.referenceSets.find? (fun r => r.id == rid))

/-- Modelled from the spec: compound identifier of a read group
(`datamodel.ReadGroupCompoundId`), a three-segment ancestry path
`dataset/readGroupSet/readGroup`; the ancestor fields re-encode the
corresponding prefixes so that the owning container can be resolved without
a second round-trip. -/
structure ReadGroupCompoundId where
  dataset_id : String
  read_group_set_id : String
  read_group_id : String
deriving DecidableEq, Repr

/-- Modelled from the spec: `ReadGroupCompoundId.parse`; fails with the
object-not-found condition when the segment count does not match. -/
def ReadGroupCompoundId.parse (s : String) : Except Err ReadGroupCompoundId :=
  match pathSegments s with
  | [d, rgs, _] =>
    .ok { dataset_id := d, read_group_set_id := d ++ "/" ++ rgs, read_group_id := s }
  | _ => .error .objectNotFound

/-- Request fields read by `readsGenerator`. -/
structure ReadsRequest where
  reference_id : String := ""
  read_group_ids : List String := []
  page_token : String := ""
deriving DecidableEq, Repr

/-- Interval-streaming iterator handed back by the reads search: the
external `paging.ReadsIntervalIterator` applied either to a single read
group or to a whole read-group-set (the merged multi-read-group case). -/
inductive ReadsIterM where
  | single : ReadsRequest → String → ReferenceR → ReadsIterM
  | multi : ReadsRequest → ReadGroupSetR → ReferenceR → ReadsIterM
deriving DecidableEq, Repr

/-- Python `set(a) == set(b)` on identifier lists. -/
def setEq (a b : List String) : Bool :=
  a.all (fun x => b.contains x) && b.all (fun x => a.contains x)

/-- Model of `Backend._readsGeneratorSingle` (`backend.py` lines 315-328). -/
def readsGeneratorSingle (repo : Repo) (request : ReadsRequest) : Except Err ReadsIterM :=
  match ReadGroupCompoundId.parse (request.read_group_ids.headD "") with
  | .error e => .error e
  | .ok compoundId =>
    match repo.getDataset compoundId.dataset_id with
    | .error e => .error e
    | .ok dataset =>
      match dataset.getReadGroupSet compoundId.read_group_set_id with
      | .error e => .error e
      | .ok readGroupSet =>
        match repo.getReferenceSetOf readGroupSet with
        | none => .error .readGroupSetNotMapped
        | some referenceSet =>
          match referenceSet.getReference request.reference_id with
          | .error e => .error e
          | .ok reference =>
            if readGroupSet.readGroupIds.contains compoundId.read_group_id then
              .ok (.single request compoundId.read_group_id reference)
            else .error .objectNotFound

/-- Model of `Backend._readsGeneratorMultiple` (`backend.py` lines
330-347): after resolving the read-group-set named by the first id, the
request is legal only when the named id set equals the set's full
read-group membership; the merged iterator then ranges over the whole
set. -/
def readsGeneratorMultiple (repo : Repo) (request : ReadsRequest) : Except Err ReadsIterM :=
  match ReadGroupCompoundId.parse (request.read_group_ids.headD "") with
  | .error e => .error e
  | .ok compoundId =>
    match repo.getDataset compoundId.dataset_id with
    | .error e => .error e
    | .ok dataset =>
      match dataset.getReadGroupSet compoundId.read_group_set_id with
      | .error e => .error e
      | .ok readGroupSet =>
        match repo.getReferenceSetOf readGroupSet with
        | none => .error .readGroupSetNotMapped
        | some referenceSet =>
          match referenceSet.getReference request.reference_id with
          | .error e => .error e
          | .ok reference =>
            if setEq readGroupSet.readGroupIds request.read_group_ids then
              .ok (.multi request readGroupSet reference)
            else .error .badRequest

/-- Model of `Backend.readsGenerator` (`backend.py` lines 300-313): a
missing reference id fails with `UnmappedReadsNotSupported`, zero read
group ids fail with `BadRequestException`, one id dispatches to the single
strategy, several ids to the merged strategy. -/
def readsGenerator (repo : Repo) (request : ReadsRequest) : Except Err ReadsIterM :=
  if request.reference_id = "" then .error .unmappedReadsNotSupported
  else if request.read_group_ids.length < 1 then .error .badRequest
  else if request.read_group_ids.length = 1 then readsGeneratorSingle repo request
  else readsGeneratorMultiple repo request

/-- C6: a reads search naming more than one read-group id succeeds exactly
when the named id set equals the full membership of the read-group-set that
the first named id belongs to, in which case the result is the one merged
interval iterator over that whole read-group-set; any other multi-id
combination fails with `BadRequestException`, and zero read-group ids also
fail with `BadRequestException`. -/
theorem spec_c6_multi_read_group_membership (repo : Repo) (request : ReadsRequest)
    (compoundId : ReadGroupCompoundId) (dataset : DatasetR) (readGroupSet : ReadGroupSetR)
    (referenceSet : ReferenceSetR) (reference : ReferenceR)
    (href : request.reference_id ≠ "")
    (hlen : 2 ≤ request.read_group_ids.length)
    (hparse : ReadGroupCompoundId.parse (request.read_group_ids.headD "") = .ok compoundId)
    (hds : repo.getDataset compoundId.dataset_id = .ok dataset)
    (hrgs : dataset.getReadGroupSet compoundId.read_group_set_id = .ok readGroupSet)
    (hrs : repo.getReferenceSetOf readGroupSet = some referenceSet)
    (hr : referenceSet.getReference request.reference_id = .ok reference) :
    (setEq readGroupSet.readGroupIds request.read_group_ids = true →
      readsGenerator repo request = .ok (.multi request readGroupSet reference)) ∧
    (setEq readGroupSet.readGroupIds request.read_group_ids = false →
      readsGenerator repo request = .error .badRequest) ∧
    (∀ request' : ReadsRequest, request'.reference_id ≠ "" →
      request'.read_group_ids = [] →
      readsGenerator repo request' = .error .badRequest) := by
  have hdisp : readsGenerator repo request = readsGeneratorMultiple repo request := by
    unfold readsGenerator
    rw [if_neg href, if_neg (by omega), if_neg (by omega)]
  simp only [List.headD_eq_head?_getD] at hparse
  refine ⟨?_, ?_, ?_⟩
  · intro hset
    rw [hdisp]
    unfold readsGeneratorMultiple
    simp [hparse, hds, hrgs, hrs, hr, hset]
  · intro hset
    rw [hdisp]
    unfold readsGeneratorMultiple
    simp [hparse, hds, hrgs, hrs, hr, hset]
  · intro request' href' hzero
    unfold readsGenerator
    rw [if_neg href', if_pos (by simp [hzero])]

/-- Scenario reference for the reads search. -/
def readsScenarioRef : ReferenceR := { id := "ref1", bases := [] }

/-- Scenario reference set for the reads search. -/
def readsScenarioRefSet : ReferenceSetR := { id := "rs", references := [readsScenarioRef] }

/-- Scenario read-group-set with two read groups. -/
def readsScenarioRGS : ReadGroupSetR :=
  { id := "d/g", readGroupIds := ["d/g/r1", "d/g/r2"], referenceSetId := some "rs" }

/-- Scenario dataset holding the read-group-set. -/
def readsScenarioDS : DatasetR :=
  { id := "d", readGroupSets := [readsScenarioRGS], featureSets := [] }

/-- Scenario repository for the reads search. -/
def readsScenarioRepo : Repo :=
  { datasets := [readsScenarioDS], referenceSets := [readsScenarioRefSet] }

/-- Scenario reads request naming both read groups of the set. -/
def readsScenarioRequest : ReadsRequest :=
  { reference_id := "ref1", read_group_ids := ["d/g/r1", "d/g/r2"], page_token := "" }

/-- Compound id parsed from the scenario's first read-group id. -/
def readsScenarioCID : ReadGroupCompoundId :=
  { dataset_id := "d", read_group_set_id := "d/g", read_group_id := "d/g/r1" }

theorem spec_c6_multi_read_group_membership_witness :
    (readsScenarioRequest.reference_id ≠ "" ∧
      2 ≤ readsScenarioRequest.read_group_ids.length ∧
      ReadGroupCompoundId.parse (readsScenarioRequest.read_group_ids.headD "") =
        .ok readsScenarioCID ∧
      readsScenarioRepo.getDataset readsScenarioCID.dataset_id = .ok readsScenarioDS ∧
      readsScenarioDS.getReadGroupSet readsScenarioCID.read_group_set_id =
        .ok readsScenarioRGS ∧
      readsScenarioRepo.getReferenceSetOf readsScenarioRGS = some readsScenarioRefSet ∧
      readsScenarioRefSet.getReference readsScenarioRequest.reference_id =
        .ok readsScenarioRef) ∧
    ((setEq readsScenarioRGS.readGroupIds readsScenarioRequest.read_group_ids = true →
        readsGenerator readsScenarioRepo readsScenarioRequest =
          .ok (.multi readsScenarioRequest readsScenarioRGS readsScenarioRef)) ∧
      (setEq readsScenarioRGS.readGroupIds readsScenarioRequest.read_group_ids = false →
        readsGenerator readsScenarioRepo readsScenarioRequest = .error .badRequest) ∧
      (∀ request' : ReadsRequest, request'.reference_id ≠ "" →
        request'.read_group_ids = [] →
        readsGenerator readsScenarioRepo request' = .error .badRequest)) :=
  ⟨⟨by decide, by decide, rfl, rfl, rfl, rfl, rfl⟩,
    spec_c6_multi_read_group_membership readsScenarioRepo readsScenarioRequest
      readsScenarioCID readsScenarioDS readsScenarioRGS readsScenarioRefSet readsScenarioRef
      (by decide) (by decide) rfl rfl rfl rfl rfl⟩

/-! ### Features search (`Backend.featuresGenerator`) -/

/-- Modelled from the spec: compound identifier of a feature set
(`datamodel.FeatureSetCompoundId`), the two-segment path
`dataset/featureSet`. -/
structure FeatureSetCompoundId where
  dataset_id : String
  feature_set_id : String
deriving DecidableEq, Repr

/-- Modelled from the spec: `FeatureSetCompoundId.parse`. -/
def FeatureSetCompoundId.parse (s : String) : Except Err FeatureSetCompoundId :=
  match pathSegments s with
  | [d, _] => .ok { dataset_id := d, feature_set_id := s }
  | _ => .error .objectNotFound

/-- Modelled from the spec: compound identifier of a feature
(`datamodel.FeatureCompoundId`), the three-segment path
`dataset/featureSet/feature`; `featureId` is the feature's own local
identifier, the ancestor fields re-encode the prefixes. -/
structure FeatureCompoundId where
  dataset_id : String
  feature_set_id : String
  featureId : String
deriving DecidableEq, Repr

/-- Modelled from the spec: `FeatureCompoundId.parse`. -/
def FeatureCompoundId.parse (s : String) : Except Err FeatureCompoundId :=
  match pathSegments s with
  | [d, fs, f] =>
    .ok { dataset_id := d, feature_set_id := d ++ "/" ++ fs, featureId := f }
  | _ => .error .objectNotFound

/-- Request fields read by `featuresGenerator`. -/
structure FeaturesRequest where
  feature_set_id : String := ""
  parent_id : String := ""
  page_token : String := ""
deriving DecidableEq, Repr

/-- Iterator handed back by the features search: the external
`paging.FeaturesIterator` applied to the resolved feature set and the
optional parent feature id. -/
structure FeaturesIterM where
  req : FeaturesRequest
  featureSet : FeatureSetR
  parentId : Option String
deriving DecidableEq, Repr

/-- Model of `Backend.featuresGenerator` (`backend.py` lines 390-427):
parse the optional feature-set id and the optional parent id; when both are
present their dataset and feature-set ancestors must agree, otherwise
`ParentIncompatibleWithFeatureSet` is raised; when only the parent is
present its ancestors determine the feature set; when neither is present
`FeatureSetNotSpecifiedException` is raised; finally the dataset and
feature set are resolved and the iterator is built. -/
def featuresGenerator (repo : Repo) (request : FeaturesRequest) : Except Err FeaturesIterM :=
  let step1 : Except Err (Option FeatureSetCompoundId) :=
    if request.feature_set_id ≠ "" then
      match FeatureSetCompoundId.parse request.feature_set_id with
      | .ok c => .ok (some c)
      | .error e => .error e
    else .ok none
  match step1 with
  | .error e => .error e
  | .ok compoundId0 =>
    let step2 : Except Err (Option FeatureSetCompoundId × Option String) :=
      if request.parent_id ≠ "" then
        match FeatureCompoundId.parse request.parent_id with
        | .error e => .error e
        | .ok compoundParentId =>
          match compoundId0 with
          | none =>
            .ok (some { dataset_id := compoundParentId.dataset_id,
                        feature_set_id := compoundParentId.feature_set_id },
                 some compoundParentId.featureId)
          | some cid =>
            if compoundParentId.dataset_id ≠ cid.dataset_id ∨
                compoundParentId.feature_set_id ≠ cid.feature_set_id then
              .error .parentIncompatibleWithFeatureSet
            else .ok (some cid, some compoundParentId.featureId)
      else .ok (compoundId0, none)
    match step2 with
    | .error e => .error e
    | .ok (none, _) => .error .featureSetNotSpecified
    | .ok (some cid, parentId) =>
      match repo.getDataset cid.dataset_id with
      | .error e => .error e
      | .ok dataset =>
        match dataset.getFeatureSet cid.feature_set_id with
        | .error e => .error e
        | .ok featureSet => .ok { req := request, featureSet := featureSet, parentId := parentId }

/-- C7: when a features search supplies both a non-empty `feature_set_id`
and a non-empty `parent_id`, a disagreement between the parsed parent's
dataset or feature-set ancestor and the parsed feature-set identifier
fails with `ParentIncompatibleWithFeatureSet`; when the ancestors agree,
resolution proceeds with that dataset and feature set and the parent's
local feature id. -/
theorem spec_c7_conflicting_ancestry (repo : Repo) (request : FeaturesRequest)
    (cid : FeatureSetCompoundId) (pid : FeatureCompoundId)
    (hfs : request.feature_set_id ≠ "") (hp : request.parent_id ≠ "")
    (hcid : FeatureSetCompoundId.parse request.feature_set_id = .ok cid)
    (hpid : FeatureCompoundId.parse request.parent_id = .ok pid) :
    ((pid.dataset_id ≠ cid.dataset_id ∨ pid.feature_set_id ≠ cid.feature_set_id) →
      featuresGenerator repo request = .error .parentIncompatibleWithFeatureSet) ∧
    (pid.dataset_id = cid.dataset_id → pid.feature_set_id = cid.feature_set_id →
      ∀ (dataset : DatasetR) (featureSet : FeatureSetR),
        repo.getDataset cid.dataset_id = .ok dataset →
        dataset.getFeatureSet cid.feature_set_id = .ok featureSet →
        featuresGenerator repo request =
          .ok { req := request, featureSet := featureSet,
                parentId := some pid.featureId }) := by
  constructor
  · intro hmis
    unfold featuresGenerator
    simp [hfs, hp, hcid, hpid, hmis]
  · intro hd hf dataset featureSet hds hfsr
    unfold featuresGenerator
    simp [hfs, hp, hcid, hpid, hd, hf, hds, hfsr]

/-- Scenario feature set. -/
def featScenarioFS : FeatureSetR := { id := "d/fs" }

/-- Scenario dataset holding the feature set. -/
def featScenarioDS : DatasetR :=
  { id := "d", readGroupSets := [], featureSets := [featScenarioFS] }

/-- Scenario repository for the features search. -/
def featScenarioRepo : Repo := { datasets := [featScenarioDS], referenceSets := [] }

/-- Scenario features request with agreeing feature-set and parent ids. -/
def featScenarioRequest : FeaturesRequest :=
  { feature_set_id := "d/fs", parent_id := "d/fs/f7", page_token := "" }

/-- Compound feature-set id of the scenario. -/
def featScenarioCID : FeatureSetCompoundId := { dataset_id := "d", feature_set_id := "d/fs" }

/-- Compound parent feature id of the scenario. -/
def featScenarioPID : FeatureCompoundId :=
  { dataset_id := "d", feature_set_id := "d/fs", featureId := "f7" }

theorem spec_c7_conflicting_ancestry_witness :
    (featScenarioRequest.feature_set_id ≠ "" ∧
      featScenarioRequest.parent_id ≠ "" ∧
      FeatureSetCompoundId.parse featScenarioRequest.feature_set_id = .ok featScenarioCID ∧
      FeatureCompoundId.parse featScenarioRequest.parent_id = .ok featScenarioPID) ∧
    (((featScenarioPID.dataset_id ≠ featScenarioCID.dataset_id ∨
        featScenarioPID.feature_set_id ≠ featScenarioCID.feature_set_id) →
      featuresGenerator featScenarioRepo featScenarioRequest =
        .error .parentIncompatibleWithFeatureSet) ∧
    (featScenarioPID.dataset_id = featScenarioCID.dataset_id →
      featScenarioPID.feature_set_id = featScenarioCID.feature_set_id →
      ∀ (dataset : DatasetR) (featureSet : FeatureSetR),
        featScenarioRepo.getDataset featScenarioCID.dataset_id = .ok dataset →
        dataset.getFeatureSet featScenarioCID.feature_set_id = .ok featureSet →
        featuresGenerator featScenarioRepo featScenarioRequest =
          .ok { req := featScenarioRequest, featureSet := featureSet,
                parentId := some featScenarioPID.featureId })) :=
  ⟨⟨by decide, by decide, rfl, rfl⟩,
    spec_c7_conflicting_ancestry featScenarioRepo featScenarioRequest featScenarioCID
      featScenarioPID (by decide) (by decide) rfl rfl⟩

/-! ### Sequence-range retrieval (`Backend.runListReferenceBases`) -/

/-- Modelled from the spec: compound identifier of a reference
(`datamodel.ReferenceCompoundId`), the two-segment path
`referenceSet/reference`. -/
structure ReferenceCompoundId where
  reference_set_id : String
  reference_id : String
deriving DecidableEq, Repr

/-- Modelled from the spec: `ReferenceCompoundId.parse`. -/
def ReferenceCompoundId.parse (s : String) : Except Err ReferenceCompoundId :=
  match pathSegments s with
  | [rs, _] => .ok { reference_set_id := rs, reference_id := s }
  | _ => .error .objectNotFound

/-- Modelled from the spec: `reference.getBases(start, end)` — the slice
`[start, end)` of the reference's base-pair text. -/
def ReferenceR.getBases (r : ReferenceR) (start stop : Nat) : List Char :=
  (r.bases.take stop).drop start

/-- Fields of a `ListReferenceBasesRequest`; `end_` renders the protocol
field `end`, and the default values model a default-constructed request
with all fields unset. -/
structure LRBRequest where
  reference_id : String := ""
  start : Nat := 0
  end_ : Nat := 0
  page_token : String := ""
deriving DecidableEq, Repr

/-- Fields of a `ListReferenceBasesResponse`; `next_page_token = none`
models the unset (empty) token. -/
structure LRBResponse where
  offset : Nat
  sequence : List Char
  next_page_token : Option String
deriving DecidableEq, Repr

/-- Model of `Backend.runListReferenceBases` (`backend.py` lines 645-670)
after request decoding: resolve the reference, interpret `end == 0` as the
reference's full length, let a page token override the start offset, serve
one chunk of at most `maxResponseLength` bases, and set the next-page
token to the next starting offset exactly when more bases remain. -/
def runListReferenceBasesCore (maxResponseLength : Nat) (repo : Repo)
    (request : LRBRequest) : Except Err LRBResponse :=
  match ReferenceCompoundId.parse request.reference_id with
  | .error e => .error e
  | .ok compoundId =>
    match repo.getReferenceSet compoundId.reference_set_id with
    | .error e => .error e
    | .ok referenceSet =>
      match referenceSet.getReference request.reference_id with
      | .error e => .error e
      | .ok reference =>
        let stop0 := if request.end_ = 0 then reference.bases.length else request.end_
        let startR : Except Err Nat :=
          if request.page_token ≠ "" then
            match parsePageToken request.page_token with
            | some v => .ok v
            | none => .error .malformedCursor
          else .ok request.start
        match startR with
        | .error e => .error e
        | .ok start =>
          let stop1 := if start + maxResponseLength < stop0 then start + maxResponseLength
            else stop0
          let nextPageToken : Option String :=
            if start + maxResponseLength < stop0 then some (strNat (start + maxResponseLength))
            else none
          .ok { offset := start, sequence := reference.getBases start stop1,
                next_page_token := nextPageToken }

/-- Wire payload of a request body, as seen by the protocol codec: absent
(`empty`), decodable into a request value, or not decodable.  Modelled from
the spec's protocol-codec contract (`protocol.fromJson` is not in the
analysed source). -/
inductive RequestBody (ρ : Type) where
  | empty : RequestBody ρ
  | valid : ρ → RequestBody ρ
  | malformed : RequestBody ρ
deriving DecidableEq, Repr

/-- Model of `Backend.runListReferenceBases` (`backend.py` lines 628-670)
including request decoding: an empty body is replaced by a
default-constructed `ListReferenceBasesRequest`, a non-empty body that does
not decode raises `InvalidJsonException`, and a decoded body is processed
by the core. -/
def runListReferenceBases (maxResponseLength : Nat) (repo : Repo)
    (body : RequestBody LRBRequest) : Except Err LRBResponse :=
  match body with
  | .empty => runListReferenceBasesCore maxResponseLength repo {}
  | .valid request => runListReferenceBasesCore maxResponseLength repo request
  | .malformed => .error .invalidJson

/-- C8: for a listReferenceBases request (with resolvable reference), an
explicit `end` of `0` is interpreted as the full length of the reference;
the returned chunk starts at the resolved start offset (the request's
`start`, or the offset decoded from the page token when one is present) and
covers at most `maxResponseLength` bases; and the response carries the
next-page token `str(start + maxResponseLength)` exactly when
`start + maxResponseLength < end`, and no token otherwise. -/
theorem spec_c8_list_reference_bases (maxResponseLength : Nat) (repo : Repo)
    (request : LRBRequest) (compoundId : ReferenceCompoundId)
    (referenceSet : ReferenceSetR) (reference : ReferenceR) (resolvedStart : Nat)
    (hparse : ReferenceCompoundId.parse request.reference_id = .ok compoundId)
    (hrs : repo.getReferenceSet compoundId.reference_set_id = .ok referenceSet)
    (hr : referenceSet.getReference request.reference_id = .ok reference)
    (hstart : if request.page_token = "" then resolvedStart = request.start
      else parsePageToken request.page_token = some resolvedStart) :
    ∃ response, runListReferenceBasesCore maxResponseLength repo request = .ok response ∧
      response.offset = resolvedStart ∧
      response.sequence = reference.getBases resolvedStart
        (min (resolvedStart + maxResponseLength)
          (if request.end_ = 0 then reference.bases.length else request.end_)) ∧
      response.sequence.length ≤ maxResponseLength ∧
      response.next_page_token =
        (if resolvedStart + maxResponseLength <
            (if request.end_ = 0 then reference.bases.length else request.end_) then
          some (strNat (resolvedStart + maxResponseLength)) else none) := by
  have hcore : runListReferenceBasesCore maxResponseLength repo request =
      .ok { offset := resolvedStart,
            sequence := reference.getBases resolvedStart
              (if resolvedStart + maxResponseLength <
                  (if request.end_ = 0 then reference.bases.length else request.end_) then
                resolvedStart + maxResponseLength
              else if request.end_ = 0 then reference.bases.length else request.end_),
            next_page_token :=
              if resolvedStart + maxResponseLength <
                  (if request.end_ = 0 then reference.bases.length else request.end_) then
                some (strNat (resolvedStart + maxResponseLength))
              else none } := by
    unfold runListReferenceBasesCore
    simp only [hparse, hrs, hr]
    by_cases hptok : request.page_token = ""
    · rw [if_pos hptok] at hstart
      subst hstart
      simp [hptok]
    · rw [if_neg hptok] at hstart
      simp [hptok, hstart]
  refine ⟨_, hcore, rfl, ?_, ?_, rfl⟩
  · generalize (if request.end_ = 0 then reference.bases.length else request.end_) = stop0
    have hmin : (if resolvedStart + maxResponseLength < stop0 then
        resolvedStart + maxResponseLength else stop0) =
        min (resolvedStart + maxResponseLength) stop0 := by
      split <;> omega
    rw [hmin]
  · generalize (if request.end_ = 0 then reference.bases.length else request.end_) = stop0
    simp only [ReferenceR.getBases, List.length_drop, List.length_take]
    split <;> omega

/-- Scenario reference with eight bases. -/
def lrbScenarioRef : ReferenceR :=
  { id := "rs/r", bases := ['A', 'C', 'G', 'T', 'A', 'C', 'G', 'T'] }

/-- Scenario reference set. -/
def lrbScenarioRefSet : ReferenceSetR := { id := "rs", references := [lrbScenarioRef] }

/-- Scenario repository for sequence-range retrieval. -/
def lrbScenarioRepo : Repo := { datasets := [], referenceSets := [lrbScenarioRefSet] }

/-- Scenario listReferenceBases request with `end == 0` and no page token. -/
def lrbScenarioRequest : LRBRequest :=
  { reference_id := "rs/r", start := 2, end_ := 0, page_token := "" }

/-- Compound reference id of the scenario. -/
def lrbScenarioCID : ReferenceCompoundId := { reference_set_id := "rs", reference_id := "rs/r" }

theorem spec_c8_list_reference_bases_witness :
    (ReferenceCompoundId.parse lrbScenarioRequest.reference_id = .ok lrbScenarioCID ∧
      lrbScenarioRepo.getReferenceSet lrbScenarioCID.reference_set_id =
        .ok lrbScenarioRefSet ∧
      lrbScenarioRefSet.getReference lrbScenarioRequest.reference_id = .ok lrbScenarioRef ∧
      (if lrbScenarioRequest.page_token = "" then 2 = lrbScenarioRequest.start
        else parsePageToken lrbScenarioRequest.page_token = some 2)) ∧
    (∃ response, runListReferenceBasesCore 3 lrbScenarioRepo lrbScenarioRequest =
        .ok response ∧
      response.offset = 2 ∧
      response.sequence = lrbScenarioRef.getBases 2
        (min (2 + 3) (if lrbScenarioRequest.end_ = 0 then lrbScenarioRef.bases.length
          else lrbScenarioRequest.end_)) ∧
      response.sequence.length ≤ 3 ∧
      response.next_page_token =
        (if 2 + 3 < (if lrbScenarioRequest.end_ = 0 then lrbScenarioRef.bases.length
            else lrbScenarioRequest.end_) then some (strNat (2 + 3)) else none)) :=
  ⟨⟨rfl, rfl, rfl, by decide⟩,
    spec_c8_list_reference_bases 3 lrbScenarioRepo lrbScenarioRequest lrbScenarioCID
      lrbScenarioRefSet lrbScenarioRef 2 rfl rfl rfl (by decide)⟩

/-- C10: a listReferenceBases call whose body is empty/absent does not
raise `InvalidJsonException`: it substitutes a default-constructed
`ListReferenceBasesRequest` (all fields unset) and proceeds with it;
`InvalidJsonException` is raised exactly for a non-empty body that fails to
decode. -/
theorem spec_c10_empty_body_default (maxResponseLength : Nat) (repo : Repo) :
    runListReferenceBases maxResponseLength repo .empty =
      runListReferenceBasesCore maxResponseLength repo {} ∧
    runListReferenceBases maxResponseLength repo .empty ≠ .error .invalidJson ∧
    (∀ request : LRBRequest,
      runListReferenceBases maxResponseLength repo (.valid request) =
        runListReferenceBasesCore maxResponseLength repo request) ∧
    runListReferenceBases maxResponseLength repo .malformed = .error .invalidJson := by
  refine ⟨rfl, ?_, fun _ => rfl, rfl⟩
  have h : runListReferenceBases maxResponseLength repo .empty =
      .error .objectNotFound := rfl
  rw [h]
  simp

/-! ### Genotype-matrix search (`Backend.runSearchGenotypesRequest`) -/

/-- One genotype-matrix row (`genotypemtx` in the code). -/
structure GenotypeRowM where
  genotypes : List Int
deriving DecidableEq, Repr

/-- Variant embedded in the genotypes response; `calls` is the per-variant
call list that the endpoint strips. -/
structure VariantM where
  id : String
  calls : List String
deriving DecidableEq, Repr

/-- Fields of a `SearchGenotypesResponse` filled in by the endpoint. -/
structure GenotypesResponseM where
  genotypes : List Int
  nvariants : Nat
  nindividuals : Nat
  variants : List VariantM
  call_set_ids : List String
deriving DecidableEq, Repr

/-- Model of `Backend.runSearchGenotypesRequest` (`backend.py` lines
672-717) after request decoding, as a function of the yield sequence of
the external genotype-matrix iterator: every yielded
`(genotypemtx, variant, callsetids)` triple is consumed to exhaustion
(pagination is deliberately ignored), genotype rows are concatenated into
one matrix, per-variant call lists are cleared, the call-set id list is
taken from the first row, and `nindividuals` is read from
`genotyperows[0]` — an indexing error (`Err.indexError`) when the iterator
yielded no rows. -/
def runSearchGenotypesRequest
    (items : List ((GenotypeRowM × VariantM × List String) × Option String)) :
    Except Err GenotypesResponseM :=
  let genotyperows := items.map (fun it => it.1.1)
  let variants := items.map (fun it => { it.1.2.1 with calls := [] })
  let callsetIds : Option (List String) := (items.head?).map (fun it => it.1.2.2)
  match genotyperows with
  | [] => .error .indexError
  | r0 :: _ =>
    .ok { genotypes := (genotyperows.map (fun r => r.genotypes)).flatten,
          nvariants := variants.length,
          nindividuals := r0.genotypes.length,
          variants := variants,
          call_set_ids := callsetIds.getD [] }

/-- C9: a searchGenotypes request whose genotype-matrix iterator yields
zero rows does not produce a response — the endpoint fails with an
uncaught indexing error because it unconditionally reads
`genotyperows[0]` — and a well-formed response is produced exactly when
the iterator yields at least one row. -/
theorem spec_c9_genotypes_empty_matrix
    (items : List ((GenotypeRowM × VariantM × List String) × Option String)) :
    (items = [] → runSearchGenotypesRequest items = .error .indexError) ∧
    (items ≠ [] → ∃ response, runSearchGenotypesRequest items = .ok response ∧
      ∃ h0 : 0 < items.length,
        response.nindividuals = ((items.get ⟨0, h0⟩).1.1).genotypes.length ∧
        response.nvariants = items.length ∧
        response.call_set_ids = (items.get ⟨0, h0⟩).1.2.2) := by
  constructor
  · intro h; subst h; rfl
  · intro h
    cases items with
    | nil => exact absurd rfl h
    | cons it rest =>
      exact ⟨_, rfl, by simp, rfl, by simp [runSearchGenotypesRequest], rfl⟩

/-- Scenario yield sequence with one genotype row. -/
def gtScenarioItems : List ((GenotypeRowM × VariantM × List String) × Option String) :=
  [((⟨[0, 1]⟩, ⟨"v1", ["c1"]⟩, ["cs1", "cs2"]), none)]

theorem spec_c9_genotypes_empty_matrix_witness :
    (([] : List ((GenotypeRowM × VariantM × List String) × Option String)) = [] ∧
      runSearchGenotypesRequest [] = .error .indexError) ∧
    (gtScenarioItems ≠ [] ∧
      ∃ response, runSearchGenotypesRequest gtScenarioItems = .ok response ∧
        ∃ h0 : 0 < gtScenarioItems.length,
          response.nindividuals = ((gtScenarioItems.get ⟨0, h0⟩).1.1).genotypes.length ∧
          response.nvariants = gtScenarioItems.length ∧
          response.call_set_ids = (gtScenarioItems.get ⟨0, h0⟩).1.2.2) :=
  ⟨⟨rfl, (spec_c9_genotypes_empty_matrix []).1 rfl⟩,
   ⟨by decide, (spec_c9_genotypes_empty_matrix gtScenarioItems).2 (by decide)⟩⟩
